import Mathlib

set_option maxRecDepth 100000

/-!
A shallow embedding of the DietAI memory subsystem
(`src/DietAI/memory_manager.py`), together with theorems settling the
specification's claims about it.

Modelling conventions:
* A store file on disk is an `Option String` (`none` = the file is absent).
* The LLM is an oracle `String → String` from the user-role prompt text to
  the completion text (the constant system message carries no information).
* Wall-clock timestamps are explicit `String` arguments.
* A fallible file write is modelled by a `writeOk : Bool` flag together
  with the text actually on disk when the write raises part-way
  (`partialWrite`); an operation that raises returns `.error` carrying the
  state as it stands when the exception propagates, so statements about
  exception paths talk about exactly the mutations the source performed
  before the raise.
-/

/-- The whitespace class stripped by Python `str.strip()`. -/
def pyIsSpace (c : Char) : Bool :=
  c = ' ' || c = '\t' || c = '\n' || c = '\r' || c = '\x0b' || c = '\x0c'

/-- Python `str.strip()` on a character list. -/
def pyStripL (l : List Char) : List Char :=
  ((l.dropWhile pyIsSpace).reverse.dropWhile pyIsSpace).reverse

/-- Python `content.strip()`. -/
def pyStrip (s : String) : String := ⟨pyStripL s.data⟩

/-- Python `s.startswith(p)`: `startsWithL s p` tests whether `p` is an
initial segment of `s`. -/
def startsWithL : List Char → List Char → Bool
  | _, [] => true
  | [], _ :: _ => false
  | c :: l, p :: ps => c == p && startsWithL l ps

/-- Python `needle in hay` (contiguous substring test). -/
def infixOfL (needle : List Char) : List Char → Bool
  | [] => needle.isEmpty
  | c :: rest => startsWithL (c :: rest) needle || infixOfL needle rest

/-- Python `content.split('\n')`: split at every newline, keeping empty
pieces, never returning an empty list. -/
def splitNL : List Char → List (List Char)
  | [] => [[]]
  | c :: rest =>
    if c = '\n' then [] :: splitNL rest
    else (c :: (splitNL rest).headI) :: (splitNL rest).tail

/-- Python `'\n'.join(lines)`. -/
def joinNL (ls : List (List Char)) : List Char :=
  List.intercalate ['\n'] ls

/-- Python `l[-n:]` for `n ≥ 0`: the whole list when `n = 0` (since
`l[-0:]` is `l[0:]`), otherwise the last `min n (length l)` elements. -/
def pyLastSlice {α : Type} (l : List α) (n : Nat) : List α :=
  if n = 0 then l else l.drop (l.length - n)

/-- The two comment header lines written into `short_term_memory.txt` by
`_ensure_memory_files` (and by the resets that "keep header"). -/
def shortTermHeader : String :=
  "# Short-term memory for current session\n# Stores up to 10 message pairs before summarization\n\n"

/-- The two comment header lines written into `long_term_memory.txt` by
`_ensure_memory_files`. -/
def longTermHeader : String :=
  "# Long-term memory for previous sessions\n# Stores summaries of past conversations\n\n"

/-- `"-" * 50`, the separator closing a short-term entry. -/
def sepDash50 : String := ⟨List.replicate 50 '-'⟩

/-- `"=" * 60`, the delimiter closing a long-term entry. -/
def sepEq60 : String := ⟨List.replicate 60 '='⟩

/-- `"-" * 60`, the rule under the long-term context header. -/
def ctxDash60 : String := ⟨List.replicate 60 '-'⟩

/-- One buffered message: `{"role": role, "content": content}`. -/
structure Message where
  role : String
  content : String
deriving DecidableEq

/-- The state of a `MemoryManager` instance: its configuration, the
in-memory session buffer and counter, and the two store files. -/
structure MemoryManager where
  shortTermLimit : Nat
  longTermSessions : Nat
  messageCounter : Nat
  messageBuffer : List Message
  shortTermFile : Option String
  longTermFile : Option String
deriving DecidableEq

/-- `add_message`: append to the buffer; increment the counter only for
role `"user"`. -/
def add_message (st : MemoryManager) (role content : String) : MemoryManager :=
  let st1 := { st with messageBuffer := st.messageBuffer ++ [⟨role, content⟩] }
  if role == "user" then { st1 with messageCounter := st1.messageCounter + 1 } else st1

/-- `should_summarize`: `message_counter >= short_term_limit`.  A pure
predicate on the state, with no side effects by construction. -/
def should_summarize (st : MemoryManager) : Bool :=
  decide (st.shortTermLimit ≤ st.messageCounter)

/-- Python `"User" if msg["role"] == "user" else "Assistant"`. -/
def roleLabel (m : Message) : String :=
  if m.role == "user" then "User" else "Assistant"

/-- The marker text opening a short-term entry line. -/
def summaryMarkerOpen : String := "--- Summary ("

/-- The user-role prompt built by `summarize_short_term_memory` from the
last `short_term_limit` buffered messages. -/
def summarizePrompt (st : MemoryManager) : String :=
  let msgs := pyLastSlice st.messageBuffer st.shortTermLimit
  let transcript :=
    msgs.foldl (fun acc m => acc ++ roleLabel m ++ ": " ++ m.content ++ "\n")
      "Conversation Transcript:\n"
  "Summarize this conversation batch, focusing on meals discussed, " ++
    "any new preferences/allergies mentioned, and the recommended macro split.\n\n" ++
    transcript ++ "\n\nProvide a concise summary:"

/-- The block appended to `short_term_memory.txt` for one summary. -/
def summaryEntry (timestamp summary : String) : String :=
  "\n" ++ summaryMarkerOpen ++ timestamp ++ ") ---" ++ "\n" ++
    summary ++ "\n" ++ sepDash50 ++ "\n"

/-- `summarize_short_term_memory`.  Returns `.ok (state, summary)` on the
normal path.  When the append to `short_term_memory.txt` raises
(`writeOk = false`), the exception propagates before the buffer-clearing
lines run: the result is `.error` carrying the state at that point, whose
file holds the prior content plus whatever part of the entry
(`partialWrite`) reached the disk. -/
def summarize_short_term_memory (st : MemoryManager) (llm : String → String)
    (timestamp : String) (writeOk : Bool) (partialWrite : String) :
    Except MemoryManager (MemoryManager × String) :=
  if st.messageBuffer.isEmpty then .ok (st, "")
  else
    let summary := llm (summarizePrompt st)
    if writeOk then
      .ok ({ st with
              shortTermFile :=
                some (st.shortTermFile.getD "" ++ summaryEntry timestamp summary),
              messageBuffer := [],
              messageCounter := 0 }, summary)
    else
      .error { st with
                shortTermFile := some (st.shortTermFile.getD "" ++ partialWrite) }

/-- The user-role prompt built by `save_to_long_term_memory` from the
whole short-term file content. -/
def consolidatePrompt (content : String) : String :=
  "Consolidate this short-term history into key long-term dietary trends, " ++
    "macro compliance, and persistent recommendations.\n\n" ++ content ++
    "\n\nProvide a comprehensive summary focusing on:\n" ++
    "- Key dietary trends and patterns\n" ++
    "- Macro compliance over time\n" ++
    "- Persistent recommendations and preferences\n" ++
    "- Important health-related notes:"

/-- The delimited block appended to `long_term_memory.txt` for one session. -/
def sessionEntry (sessionDate timestamp summary : String) : String :=
  "\n=== Session Summary (" ++ sessionDate ++ ") - " ++ timestamp ++ " ===\n" ++
    summary ++ "\n" ++ sepEq60 ++ "\n"

/-- `save_to_long_term_memory`: skip when the file is absent, or when its
stripped content is empty or starts with `"#"`; otherwise append one
delimited entry to the long-term file, reset the short-term file to the
header, and clear the buffer and counter. -/
def save_to_long_term_memory (st : MemoryManager) (llm : String → String)
    (sessionDate timestamp : String) : MemoryManager :=
  match st.shortTermFile with
  | none => st
  | some content =>
    if pyStrip content = "" || startsWithL (pyStrip content).data "#".data then st
    else
      let summary := llm (consolidatePrompt content)
      { st with
        longTermFile :=
          some (st.longTermFile.getD "" ++ sessionEntry sessionDate timestamp summary),
        shortTermFile := some shortTermHeader,
        messageBuffer := [],
        messageCounter := 0 }

/-- One step of the `for line in content.split('\n')` scan of
`load_long_term_memory_context`: accumulator is
(`sessions`, `current_session`, `in_session`). -/
def sessionScanStep (acc : List (List Char) × List (List Char) × Bool)
    (line : List Char) : List (List Char) × List (List Char) × Bool :=
  let (sessions, current, inSession) := acc
  if startsWithL line "===".data && infixOfL "Session Summary".data line then
    (if !current.isEmpty && inSession then sessions ++ [joinNL current] else sessions,
     [line], true)
  else if inSession then
    let current := current ++ [line]
    if startsWithL line sepEq60.data then (sessions ++ [joinNL current], [], false)
    else (sessions, current, true)
  else acc

/-- The session blocks recovered by scanning the long-term file content
line by line (the parse loop of `load_long_term_memory_context`). -/
def extractSessions (content : String) : List String :=
  (((splitNL content.data).foldl sessionScanStep ([], [], false)).1).map
    (fun l => ⟨l⟩)

/-- The `recent_sessions = sessions[-self.long_term_sessions:] if sessions
else []` selection. -/
def recentSessions (st : MemoryManager) (content : String) : List String :=
  let sessions := extractSessions content
  if sessions.isEmpty then [] else pyLastSlice sessions st.longTermSessions

/-- `load_long_term_memory_context`: empty string when the file is absent,
or its stripped content is empty or starts with `"#"`, or no complete
session block is selected; otherwise the selected blocks under a fixed
header. -/
def load_long_term_memory_context (st : MemoryManager) : String :=
  match st.longTermFile with
  | none => ""
  | some content =>
    if pyStrip content = "" || startsWithL (pyStrip content).data "#".data then ""
    else
      let recent := recentSessions st content
      if recent.isEmpty then ""
      else
        recent.foldl (fun acc s => acc ++ s ++ "\n\n")
          ("Previous Session Summaries:\n" ++ ctxDash60 ++ "\n")

/-- `get_short_term_memory_context`: render the buffer when non-empty;
otherwise return the raw short-term file content unless it is empty or its
stripped form starts with `"#"`, in which case return `""`. -/
def get_short_term_memory_context (st : MemoryManager) : String :=
  if st.messageBuffer.isEmpty then
    match st.shortTermFile with
    | none => ""
    | some content =>
      if content ≠ "" && !startsWithL (pyStrip content).data "#".data then content
      else ""
  else
    st.messageBuffer.foldl (fun acc m => acc ++ roleLabel m ++ ": " ++ m.content ++ "\n")
      "Current Session Messages:\n"

/-- `clear_short_term_memory`: reset buffer, counter, and the short-term
file (header kept); the long-term file is untouched. -/
def clear_short_term_memory (st : MemoryManager) : MemoryManager :=
  { st with
    messageBuffer := [],
    messageCounter := 0,
    shortTermFile := some shortTermHeader }

/-- `get_long_term_history`: sentinels for an absent file and for content
whose stripped form is empty or starts with `"#"`; the raw content
otherwise. -/
def get_long_term_history (st : MemoryManager) : String :=
  match st.longTermFile with
  | none => "No long-term memory found."
  | some content =>
    if pyStrip content = "" || startsWithL (pyStrip content).data "#".data then
      "No previous session summaries found."
    else content

/-! ### Derived notions used by the claims -/

/-- The number of short-term entries in a character list: lines beginning
with the `--- Summary (` marker. -/
def countMarkersL (l : List Char) : Nat :=
  ((splitNL l).filter (fun ln => startsWithL ln summaryMarkerOpen.data)).length

/-- The number of short-term entries currently in the short-term store. -/
def countShortEntries (st : MemoryManager) : Nat :=
  countMarkersL (st.shortTermFile.getD "").data

/-- Replay a sequence of `add_message` calls. -/
def addAll (st : MemoryManager) (msgs : List (String × String)) : MemoryManager :=
  msgs.foldl (fun s m => add_message s m.1 m.2) st

/-- The number of user-role messages in a call sequence. -/
def userMsgCount (msgs : List (String × String)) : Nat :=
  (msgs.filter (fun m => m.1 == "user")).length

/-- The manager state after an operation, whether it returned normally or
raised. -/
def postState (r : Except MemoryManager (MemoryManager × String)) : MemoryManager :=
  match r with
  | .ok p => p.1
  | .error st => st

/-- The buffer/counter invariant: the user-message counter equals the
number of buffered messages whose role is exactly `"user"`. -/
abbrev bufferInv (st : MemoryManager) : Prop :=
  st.messageCounter = (st.messageBuffer.filter (fun m => m.role == "user")).length

/-! ### Concrete fixtures

States exactly as the program itself produces them: both store files carry
the comment headers written by `_ensure_memory_files`, with real entries
appended after the header. -/

/-- A constant inference oracle used in concrete evaluations. -/
def llmConst : String → String := fun _ => "Consolidated dietary summary."

/-- A short-term file as the program writes it: header, then one real
summary entry appended by `summarize_short_term_memory`. -/
def fixShortContent : String :=
  shortTermHeader ++
    summaryEntry "2024-01-01 10:00:00" "User discussed oatmeal and protein goals."

/-- A long-term file as the program writes it: header, then one delimited
session entry appended by `save_to_long_term_memory`. -/
def fixLongContent : String :=
  longTermHeader ++
    sessionEntry "2024-01-01" "2024-01-01 10:30:00" "Ate oats; high protein."

/-- A session state at `/exit` time: short-term store holds real content. -/
def fixStateC1 : MemoryManager :=
  { shortTermLimit := 10, longTermSessions := 3, messageCounter := 0,
    messageBuffer := [], shortTermFile := some fixShortContent,
    longTermFile := some longTermHeader }

/-- A fresh-session state whose long-term store holds one entry (K = 1)
with recency cap 1 (C = 1). -/
def fixStateC2 : MemoryManager :=
  { shortTermLimit := 10, longTermSessions := 1, messageCounter := 0,
    messageBuffer := [], shortTermFile := some shortTermHeader,
    longTermFile := some fixLongContent }

/-- A state whose short-term content passes the consolidation guard (it
does not start with `"#"`), over a freshly initialized long-term file. -/
def fixStateC3 : MemoryManager :=
  { shortTermLimit := 10, longTermSessions := 3, messageCounter := 0,
    messageBuffer := [], shortTermFile := some "User discussed oatmeal and protein targets.\n",
    longTermFile := some longTermHeader }

/-- A state with an empty session buffer whose short-term file holds real
summaries beyond the header. -/
def fixStateC4 : MemoryManager :=
  { shortTermLimit := 10, longTermSessions := 3, messageCounter := 0,
    messageBuffer := [], shortTermFile := some fixShortContent,
    longTermFile := some longTermHeader }

/-- A mid-session state with one buffered user message. -/
def fixStateC6 : MemoryManager :=
  { shortTermLimit := 10, longTermSessions := 3, messageCounter := 1,
    messageBuffer := [⟨"user", "I had oats for breakfast"⟩],
    shortTermFile := some shortTermHeader, longTermFile := some longTermHeader }

/-- An oracle producing a fixed short-term summary. -/
def llmC6 : String → String := fun _ => "Discussed oats for breakfast."

/-- A fresh state with summarization threshold 2. -/
def fixStateC7 : MemoryManager :=
  { shortTermLimit := 2, longTermSessions := 3, messageCounter := 0,
    messageBuffer := [], shortTermFile := some shortTermHeader,
    longTermFile := some longTermHeader }

/-- Two user/assistant turns. -/
def msgsC7 : List (String × String) :=
  [("user", "What is a good breakfast?"), ("assistant", "Oatmeal with berries."),
   ("user", "And lunch?"), ("assistant", "Grilled chicken salad.")]

/-- A state holding one user message and one unrecognized-role message. -/
def fixStateC8 : MemoryManager :=
  { shortTermLimit := 10, longTermSessions := 3, messageCounter := 1,
    messageBuffer := [⟨"user", "I ate oats"⟩, ⟨"moderator", "noted"⟩],
    shortTermFile := some shortTermHeader, longTermFile := some longTermHeader }

/-- A mid-session state with one buffered user message. -/
def fixStateC9 : MemoryManager :=
  { shortTermLimit := 10, longTermSessions := 3, messageCounter := 1,
    messageBuffer := [⟨"user", "hello"⟩], shortTermFile := some shortTermHeader,
    longTermFile := some longTermHeader }

/-! ### Helper lemmas -/

/-- Concatenating strings concatenates their character lists. -/
theorem strDataAppend : ∀ (a b : String), (a ++ b).data = a.data ++ b.data
  | ⟨_⟩, ⟨_⟩ => rfl

theorem splitNL_ne_nil : ∀ l : List Char, splitNL l ≠ []
  | [] => by simp [splitNL]
  | c :: rest => by
    simp only [splitNL]
    split <;> simp

/-- Splitting distributes over a newline: the pieces of `a ++ '\n' :: b`
are the pieces of `a` followed by the pieces of `b`. -/
theorem splitNL_append_nl : ∀ a b : List Char,
    splitNL (a ++ '\n' :: b) = splitNL a ++ splitNL b
  | [], b => by simp [splitNL]
  | c :: a, b => by
    by_cases hc : c = '\n'
    · subst hc
      simp [splitNL, splitNL_append_nl a b]
    · have ih := splitNL_append_nl a b
      cases h : splitNL a with
      | nil => exact absurd h (splitNL_ne_nil a)
      | cons l ls =>
        simp [splitNL, if_neg hc, ih, h]

/-- A newline-free character list splits into the single line it is. -/
theorem splitNL_no_nl : ∀ l : List Char, (∀ c ∈ l, c ≠ '\n') → splitNL l = [l]
  | [], _ => rfl
  | c :: rest, h => by
    have hc : c ≠ '\n' := h c (by simp)
    have ih := splitNL_no_nl rest (fun x hx => h x (by simp [hx]))
    simp [splitNL, if_neg hc, ih]

/-- A list starts with its own initial segment. -/
theorem startsWithL_append_self : ∀ (p l : List Char), startsWithL (p ++ l) p = true
  | [], l => by cases l <;> rfl
  | c :: p, l => by simp [startsWithL, startsWithL_append_self p l]

/-- Appending one well-formed summary block raises the marker count by
exactly one: the block contributes its marker line, while its summary
lines, separator line, and trailing empty line contribute none. -/
theorem countMarkersL_block (a m s d : List Char)
    (hm : startsWithL m summaryMarkerOpen.data = true)
    (hmnl : ∀ c ∈ m, c ≠ '\n')
    (hs : ∀ ln ∈ splitNL s, startsWithL ln summaryMarkerOpen.data = false)
    (hd : startsWithL d summaryMarkerOpen.data = false)
    (hdnl : ∀ c ∈ d, c ≠ '\n') :
    countMarkersL (a ++ '\n' :: (m ++ '\n' :: (s ++ '\n' :: (d ++ ['\n'])))) =
      countMarkersL a + 1 := by
  have h0 : startsWithL [] summaryMarkerOpen.data = false := by decide
  have hfs : (splitNL s).filter (fun ln => startsWithL ln summaryMarkerOpen.data) = [] :=
    List.filter_eq_nil_iff.mpr (by intro ln hln; simp [hs ln hln])
  unfold countMarkersL
  rw [splitNL_append_nl, splitNL_append_nl, splitNL_append_nl, splitNL_append_nl,
    splitNL_no_nl m hmnl, splitNL_no_nl d hdnl]
  simp [List.filter_append, List.filter_cons, hm, hd, h0, hfs, splitNL]

theorem add_message_counter (st : MemoryManager) (role content : String) :
    (add_message st role content).messageCounter =
      st.messageCounter + (if role == "user" then 1 else 0) := by
  cases h : (role == "user") <;> simp [add_message, h]

theorem add_message_limit (st : MemoryManager) (role content : String) :
    (add_message st role content).shortTermLimit = st.shortTermLimit := by
  cases h : (role == "user") <;> simp [add_message, h]

theorem addAll_counter : ∀ (msgs : List (String × String)) (st : MemoryManager),
    (addAll st msgs).messageCounter = st.messageCounter + userMsgCount msgs
  | [], st => by simp [addAll, userMsgCount]
  | m :: rest, st => by
    have step : addAll st (m :: rest) = addAll (add_message st m.1 m.2) rest := rfl
    rw [step, addAll_counter rest, add_message_counter]
    simp only [userMsgCount, List.filter_cons]
    cases h : (m.1 == "user")
    · simp [h]
    · simp [h]
      omega

theorem addAll_limit : ∀ (msgs : List (String × String)) (st : MemoryManager),
    (addAll st msgs).shortTermLimit = st.shortTermLimit
  | [], _ => rfl
  | m :: rest, st => by
    have step : addAll st (m :: rest) = addAll (add_message st m.1 m.2) rest := rfl
    rw [step, addAll_limit rest, add_message_limit]

theorem userMsgCount_append (a b : List (String × String)) :
    userMsgCount (a ++ b) = userMsgCount a + userMsgCount b := by
  simp [userMsgCount, List.filter_append]

/-! ### The claims -/

/-- Claim C1 - code_bug evidence.  The short-term store holds real
summarized content beyond its header (second and third conjuncts), yet
`save_to_long_term_memory` leaves the state entirely unchanged: no
long-term entry is appended and the short-term store is not reset,
because `content.strip().startswith("#")` is true for any content that
begins with the header `_ensure_memory_files` always writes. -/
theorem C1_consolidation_skips_real_content :
    save_to_long_term_memory fixStateC1 llmConst "2024-01-01" "2024-01-01 11:00:00" =
      fixStateC1 ∧
    pyStrip fixShortContent ≠ "" ∧
    pyStrip fixShortContent ≠ pyStrip shortTermHeader := by
  refine ⟨by decide, by decide, by decide⟩

/-- Claim C2 - code_bug evidence.  The long-term store parses to exactly
one delimited session entry (K = 1) and the recency cap is 1 (C = 1), so
the claim demands `min 1 1 = 1` entry in the returned context; the code
returns the empty context because the stripped file content starts with
`"#"` (its standard header). -/
theorem C2_load_returns_nothing_for_real_store :
    load_long_term_memory_context fixStateC2 = "" ∧
    (extractSessions fixLongContent).length = 1 ∧
    fixStateC2.longTermSessions = 1 := by
  refine ⟨by decide, by decide, by decide⟩

/-- Claim C3 - code_bug evidence.  Starting from a freshly initialized
long-term file, `save_to_long_term_memory` really does append one
delimited entry holding the oracle's summary (first conjunct), yet
immediately re-parsing the store with `load_long_term_memory_context`
yields the empty string (second conjunct): the summary text is not
recovered, because the store now begins with its `"#"` header. -/
theorem C3_roundtrip_loses_entry :
    (extractSessions
        ((save_to_long_term_memory fixStateC3 llmConst "2024-01-02"
            "2024-01-02 09:00:00").longTermFile.getD "")).length = 1 ∧
    load_long_term_memory_context
        (save_to_long_term_memory fixStateC3 llmConst "2024-01-02"
          "2024-01-02 09:00:00") = "" := by
  refine ⟨by decide, by decide⟩

/-- Claim C4 - code_bug evidence.  The buffer is empty and the short-term
file content is neither empty nor header-only (third and fourth
conjuncts), yet `get_short_term_memory_context` returns `""` instead of
the raw file content, because the content's stripped form starts with
`"#"` (its standard header). -/
theorem C4_short_term_fallback_empty :
    get_short_term_memory_context fixStateC4 = "" ∧
    fixStateC4.messageBuffer = [] ∧
    fixShortContent ≠ "" ∧
    pyStrip fixShortContent ≠ pyStrip shortTermHeader := by
  refine ⟨by decide, by decide, by decide, by decide⟩

/-- Claim C5 - code_bug evidence.  The long-term store contains one
delimited entry (second conjunct), so the claim demands the full content
verbatim; `get_long_term_history` instead returns the "no summaries"
sentinel, because the content's stripped form starts with `"#"` (its
standard header). -/
theorem C5_history_sentinel_despite_entries :
    get_long_term_history fixStateC2 = "No previous session summaries found." ∧
    (extractSessions fixLongContent).length = 1 := by
  refine ⟨by decide, by decide⟩

/-- Claim C6: for every non-empty session buffer, a successful short-term
summarization returns the oracle's summary, empties the buffer, resets
the counter to 0, and leaves the short-term store with exactly one more
entry than before.  The timestamp is newline-free (as `strftime` output
is) and the summary contains no line that itself begins with the entry
marker. -/
theorem C6_summarize_effects (st : MemoryManager) (llm : String → String)
    (ts partialWrite : String)
    (hbuf : st.messageBuffer ≠ [])
    (hts : ∀ c ∈ ts.data, c ≠ '\n')
    (hsum : ∀ ln ∈ splitNL (llm (summarizePrompt st)).data,
      startsWithL ln summaryMarkerOpen.data = false) :
    ∃ st', summarize_short_term_memory st llm ts true partialWrite =
        .ok (st', llm (summarizePrompt st)) ∧
      st'.messageBuffer = [] ∧ st'.messageCounter = 0 ∧
      countShortEntries st' = countShortEntries st + 1 := by
  have hbe : st.messageBuffer.isEmpty = false := by
    cases h : st.messageBuffer with
    | nil => exact absurd h hbuf
    | cons a l => rfl
  refine ⟨{ st with
      shortTermFile := some (st.shortTermFile.getD "" ++
        summaryEntry ts (llm (summarizePrompt st))),
      messageBuffer := [], messageCounter := 0 }, ?_, rfl, rfl, ?_⟩
  · simp [summarize_short_term_memory, hbe]
  · have hnl : ("\n" : String).data = ['\n'] := rfl
    have hdata : (st.shortTermFile.getD "" ++
        summaryEntry ts (llm (summarizePrompt st))).data =
        (st.shortTermFile.getD "").data ++
          '\n' :: ((summaryMarkerOpen.data ++ (ts.data ++ ") ---".data)) ++
            '\n' :: ((llm (summarizePrompt st)).data ++
              '\n' :: (sepDash50.data ++ ['\n']))) := by
      simp [summaryEntry, strDataAppend, hnl]
    have hm : startsWithL (summaryMarkerOpen.data ++ (ts.data ++ ") ---".data))
        summaryMarkerOpen.data = true := startsWithL_append_self _ _
    have hlit1 : ∀ x ∈ summaryMarkerOpen.data, x ≠ '\n' := by decide
    have hlit2 : ∀ x ∈ (") ---" : String).data, x ≠ '\n' := by decide
    have hmnl : ∀ c ∈ summaryMarkerOpen.data ++ (ts.data ++ ") ---".data), c ≠ '\n' := by
      intro c hc
      rcases List.mem_append.mp hc with h1 | h2
      · exact hlit1 c h1
      · rcases List.mem_append.mp h2 with h3 | h4
        · exact hts c h3
        · exact hlit2 c h4
    have hd : startsWithL sepDash50.data summaryMarkerOpen.data = false := by decide
    have hdnl : ∀ c ∈ sepDash50.data, c ≠ '\n' := by decide
    show countMarkersL (st.shortTermFile.getD "" ++
        summaryEntry ts (llm (summarizePrompt st))).data =
      countMarkersL (st.shortTermFile.getD "").data + 1
    rw [hdata]
    exact countMarkersL_block _ _ _ _ hm hmnl hsum hd hdnl

/-- Claim C6 witness: a concrete one-message session. -/
theorem C6_witness :
    fixStateC6.messageBuffer ≠ [] ∧
    ∃ st', summarize_short_term_memory fixStateC6 llmC6 "2024-01-01 10:00:00" true "" =
        .ok (st', llmC6 (summarizePrompt fixStateC6)) ∧
      st'.messageBuffer = [] ∧ st'.messageCounter = 0 ∧
      countShortEntries st' = countShortEntries fixStateC6 + 1 :=
  ⟨by decide,
    C6_summarize_effects fixStateC6 llmC6 "2024-01-01 10:00:00" ""
      (by decide) (by decide) (by decide)⟩

/-- Claim C7: replaying any `add_message` sequence from a zeroed counter,
`should_summarize` is false after every prefix while the sequence holds
fewer user messages than the threshold, and becomes true once the user
messages reach the threshold.  (`should_summarize` is a pure predicate of
the state by construction, so it has no side effects.) -/
theorem C7_threshold_behavior (st0 : MemoryManager) (msgs : List (String × String))
    (h0 : st0.messageCounter = 0) :
    (∀ pre suf, msgs = pre ++ suf → userMsgCount msgs < st0.shortTermLimit →
      should_summarize (addAll st0 pre) = false) ∧
    (userMsgCount msgs = st0.shortTermLimit →
      should_summarize (addAll st0 msgs) = true) := by
  constructor
  · intro pre suf hsplit hlt
    have hc := addAll_counter pre st0
    have hl := addAll_limit pre st0
    have hle : userMsgCount pre ≤ userMsgCount msgs := by
      rw [hsplit, userMsgCount_append]; omega
    simp only [should_summarize, hc, hl, h0, decide_eq_false_iff_not]
    omega
  · intro heq
    have hc := addAll_counter msgs st0
    have hl := addAll_limit msgs st0
    simp only [should_summarize, hc, hl, h0, decide_eq_true_eq]
    omega

/-- Claim C7 witness: threshold 2, two user/assistant turns. -/
theorem C7_witness :
    fixStateC7.messageCounter = 0 ∧
    should_summarize (addAll fixStateC7 msgsC7) = true :=
  ⟨rfl, (C7_threshold_behavior fixStateC7 msgsC7 rfl).2 (by decide)⟩

/-- Claim C8: the invariant "counter = number of buffered messages with
role exactly `user`" is preserved by `add_message` with any role string,
by `summarize_short_term_memory` on both its normal and its raising path,
by `save_to_long_term_memory`, and by `clear_short_term_memory`. -/
theorem C8_counter_invariant (st : MemoryManager) (h : bufferInv st) :
    (∀ role content, bufferInv (add_message st role content)) ∧
    (∀ llm ts writeOk partialWrite,
      bufferInv (postState
        (summarize_short_term_memory st llm ts writeOk partialWrite))) ∧
    (∀ llm sessionDate ts, bufferInv (save_to_long_term_memory st llm sessionDate ts)) ∧
    bufferInv (clear_short_term_memory st) := by
  refine ⟨?_, ?_, ?_, ?_⟩
  · intro role content
    cases hr : (role == "user") <;>
      simp [bufferInv, add_message, hr, List.filter_append, h]
  · intro llm ts writeOk partialWrite
    cases hb : st.messageBuffer.isEmpty
    · cases writeOk <;> simp [summarize_short_term_memory, hb, postState, bufferInv, h]
    · simp [summarize_short_term_memory, hb, postState, bufferInv, h]
  · intro llm sessionDate ts
    cases hf : st.shortTermFile with
    | none =>
      simp only [save_to_long_term_memory, hf]
      exact h
    | some content =>
      simp only [save_to_long_term_memory, hf]
      split
      · exact h
      · simp [bufferInv]
  · simp [bufferInv, clear_short_term_memory]

/-- Claim C8 witness: a state holding one user message and one
unrecognized-role message, run through all four operations. -/
theorem C8_witness :
    bufferInv fixStateC8 ∧
    bufferInv (add_message fixStateC8 "moderator" "hello") ∧
    bufferInv (postState (summarize_short_term_memory fixStateC8 llmConst "t" true "")) ∧
    bufferInv (save_to_long_term_memory fixStateC8 llmConst "d" "t") ∧
    bufferInv (clear_short_term_memory fixStateC8) :=
  ⟨by decide,
    (C8_counter_invariant fixStateC8 (by decide)).1 "moderator" "hello",
    (C8_counter_invariant fixStateC8 (by decide)).2.1 llmConst "t" true "",
    (C8_counter_invariant fixStateC8 (by decide)).2.2.1 llmConst "d" "t",
    (C8_counter_invariant fixStateC8 (by decide)).2.2.2⟩

/-- Claim C9: if the append to the short-term store raises, the exception
propagates before the buffer-clearing lines run, so the in-memory buffer
and the user-message counter are exactly those of the pre-call state. -/
theorem C9_failed_write_preserves_buffer (st : MemoryManager) (llm : String → String)
    (ts partialWrite : String) (hbuf : st.messageBuffer ≠ []) :
    ∃ st', summarize_short_term_memory st llm ts false partialWrite = .error st' ∧
      st'.messageBuffer = st.messageBuffer ∧
      st'.messageCounter = st.messageCounter := by
  have hbe : st.messageBuffer.isEmpty = false := by
    cases h : st.messageBuffer with
    | nil => exact absurd h hbuf
    | cons a l => rfl
  refine ⟨{ st with shortTermFile := some (st.shortTermFile.getD "" ++ partialWrite) },
    ?_, rfl, rfl⟩
  simp [summarize_short_term_memory, hbe]

/-- Claim C9 witness: a concrete one-message session with a failing write. -/
theorem C9_witness :
    fixStateC9.messageBuffer ≠ [] ∧
    ∃ st', summarize_short_term_memory fixStateC9 llmConst "2024-01-01 10:00:00"
        false "" = .error st' ∧
      st'.messageBuffer = fixStateC9.messageBuffer ∧
      st'.messageCounter = fixStateC9.messageCounter :=
  ⟨by decide,
    C9_failed_write_preserves_buffer fixStateC9 llmConst "2024-01-01 10:00:00" ""
      (by decide)⟩

/-- Claim C10: with an empty session buffer, `summarize_short_term_memory`
returns the empty string with the state unchanged, for every oracle,
timestamp, and write outcome - so no inference call and no file write can
influence the result. -/
theorem C10_empty_buffer_noop (st : MemoryManager) (llm : String → String)
    (ts : String) (writeOk : Bool) (partialWrite : String)
    (h : st.messageBuffer = []) :
    summarize_short_term_memory st llm ts writeOk partialWrite = .ok (st, "") := by
  simp [summarize_short_term_memory, h]

/-- Claim C10 witness: a concrete empty-buffer state. -/
theorem C10_witness :
    fixStateC2.messageBuffer = [] ∧
    summarize_short_term_memory fixStateC2 llmConst "2024-01-01 10:00:00" true "" =
      .ok (fixStateC2, "") :=
  ⟨rfl, C10_empty_buffer_noop fixStateC2 llmConst "2024-01-01 10:00:00" true "" rfl⟩
